import Mathlib

set_option maxHeartbeats 1000000

/-!
Shallow embedding of the TinyTIFF-Cxx reader (`tiff_cxx.h` / the reader
translation unit) and verification of its specification claims.

Machine integers are modelled as `Nat` with explicit reductions modulo
`2^16` / `2^32` / `2^64` exactly where the C++ arithmetic truncates.
Enumerations that merely carry raw integral values in the source
(`DataType`, `Tags`, `CompressionType`, `PlanarConfiguration`,
`PhotometricInterpretation`, `Orientation`, ...) are modelled as the raw
`Nat` they wrap, since the C++ code freely casts arbitrary integers into
them and switches with a default branch.  The `std::ifstream` is modelled
as an in-memory byte list with a cursor and a fail flag.
-/

def U16 : Nat := 65536
def U32 : Nat := 4294967296
def U64 : Nat := 18446744073709551616

inductive ByteOrder where
  | Unknown
  | BigEndian
  | LittleEndian
deriving DecidableEq

inductive Error where
  | NoError
  | FormatNotSupport
  | CompressionNotSupport
  | TiledNotSupport
  | OrientationNotSupport
  | PhotometricInterpretationNotSupport
  | MultiSampleSizeNotSupport
  | InvalidImageSize
  | InvalidBitPerSample
  | InvalidTiffByteOrder
  | InvalidTiffMagicNumber
  | NoMoreImagesInTiff
  | StripDataLost
  | OpenFileFailed
  | ReaderIsNotGoodYet
deriving DecidableEq

/-- `tiff::variant_t = std::variant<uint8_t, uint16_t, uint32_t, uint64_t>`. -/
inductive variant_t where
  | u8 (v : Nat)
  | u16 (v : Nat)
  | u32 (v : Nat)
  | u64 (v : Nat)
deriving DecidableEq

/-- Storage width (in bits) of a materialized sample value. -/
def variant_width : variant_t → Nat
  | .u8 _ => 8
  | .u16 _ => 16
  | .u32 _ => 32
  | .u64 _ => 64

/-- Raw payload of a materialized sample value. -/
def variant_val : variant_t → Nat
  | .u8 v => v
  | .u16 v => v
  | .u32 v => v
  | .u64 v => v

/-- `tiff::Vec2ul` (a pair of `unsigned long`, modelled as 64-bit). -/
structure Vec2ul where
  x : Nat
  y : Nat
deriving DecidableEq

/-- Wrapping `unsigned long` (64-bit) subtraction, valid for `a, b < 2^64`. -/
def usub64 (a b : Nat) : Nat := (a + U64 - b) % U64

/-- `util::byte_swap<uint16_t>`: `(n >> 8) | (n << 8)` is computed after
integral promotion to `int` and truncated back to `uint16_t` on return. -/
def byte_swap16 (n : Nat) : Nat := ((n >>> 8) ||| (n <<< 8)) % U16

/-- `util::byte_swap<uint32_t>`.  For `n < 2^32` none of the intermediate
`uint32_t` operations can overflow, so no wrap-around is inserted. -/
def byte_swap32 (n : Nat) : Nat :=
  ((n &&& 0xFF) <<< 24)
    + ((n &&& 0xFF00) <<< 8)
    + ((n &&& 0xFF0000) >>> 8)
    + ((n &&& 0xFF000000) >>> 24)

/-- `util::byte_swap<uint64_t>`.  For `n < 2^64` none of the intermediate
`uint64_t` operations can overflow, so no wrap-around is inserted. -/
def byte_swap64 (n : Nat) : Nat :=
  ((n &&& 0x00000000000000FF) <<< 56)
    + ((n &&& 0x000000000000FF00) <<< 40)
    + ((n &&& 0x0000000000FF0000) <<< 24)
    + ((n &&& 0x00000000FF000000) <<< 8)
    + ((n &&& 0x000000FF00000000) >>> 8)
    + ((n &&& 0x0000FF0000000000) >>> 24)
    + ((n &&& 0x00FF000000000000) >>> 40)
    + ((n &&& 0xFF00000000000000) >>> 56)

/-- `util::do_ranges_overlap`, with the `unsigned long` subtractions kept
as wrapping 64-bit operations exactly as in the source. -/
def do_ranges_overlap (r1 r2 : Vec2ul) : Option Vec2ul :=
  let total_range := usub64 (max r1.y r2.y) (min r1.x r2.x)
  let sum_of_ranges := (usub64 r1.y r1.x + usub64 r2.y r2.x) % U64
  if sum_of_ranges > total_range then
    some ⟨max r1.x r2.x, min r1.y r2.y⟩
  else
    none

/-- The `std::ifstream` as seen by the reader: an immutable byte list, a
get cursor, and a fail flag standing for `failbit`/`eofbit`. -/
structure ByteStream where
  data : List Nat
  pos : Nat
  fail : Bool
deriving DecidableEq

/-- `stream.clear()`. -/
def ByteStream.clear (s : ByteStream) : ByteStream := { s with fail := false }

/-- `stream.seekg(n, std::ios_base::beg)`: a no-op when the fail flag is
set (the sentry of `seekg` fails). -/
def ByteStream.seekAbs (s : ByteStream) (n : Nat) : ByteStream :=
  if s.fail then s else { s with pos := n }

/-- `stream.seekg(n, std::ios_base::cur)`. -/
def ByteStream.seekCur (s : ByteStream) (n : Nat) : ByteStream :=
  if s.fail then s else { s with pos := s.pos + n }

/-- `stream.read(buf, n)`: returns the `gcount()` bytes actually
transferred; a short read sets the fail flag. -/
def ByteStream.readChars (s : ByteStream) (n : Nat) : List Nat × ByteStream :=
  if s.fail then ([], s)
  else
    let avail := s.data.length - s.pos
    if n ≤ avail then ((s.data.drop s.pos).take n, { s with pos := s.pos + n })
    else ((s.data.drop s.pos).take avail, { s with pos := s.pos + avail, fail := true })

/-- Bytes at increasing stream addresses assembled into an integer
according to the host byte order: this is the raw
`stream.read((char*)&result, sizeof(result))` of `ReaderPrivate::read<T>`.
An `Unknown` host order cannot occur on conventional hardware
(`util::get_byte_order` is defensive); it is mapped to little-endian here
and no theorem depends on it. -/
def assembleHost (ord : ByteOrder) (bs : List Nat) : Nat :=
  match ord with
  | ByteOrder.BigEndian => bs.foldl (fun acc b => acc * 256 + b) 0
  | _ => bs.foldr (fun b acc => b + 256 * acc) 0

/-- Little-endian byte image of `v`, `w` bytes long. -/
def natToBytesLE : Nat → Nat → List Nat
  | 0, _ => []
  | w + 1, v => v % 256 :: natToBytesLE w (v / 256)

/-- Byte image of `v` at increasing addresses in host byte order (used for
storing a value back into a byte buffer). -/
def serializeHost (ord : ByteOrder) (w v : Nat) : List Nat :=
  match ord with
  | ByteOrder.BigEndian => (natToBytesLE w v).reverse
  | _ => natToBytesLE w v

/-- `tiff::reader::ReaderFrame`.  Integral enum fields carry their raw
values (compression 1 = None; planar_config 1 = Chunky, 2 = Planar;
orientation 1 = Stantard; photometric 3 = Palette; ...).  The two
`XResolution`/`YResolution` fields store the raw numerator/denominator
pair; the source converts them with `float` division, which is outside
this embedding and touched by no claim. -/
structure ReaderFrame where
  width : Nat := 0
  height : Nat := 0
  compression : Nat := 1
  samples_per_pixel : Nat := 1
  bits_per_sample : Nat := 0
  planar_config : Nat := 1
  sample_format : Nat := 1
  image_length : Nat := 0
  orientation : Nat := 1
  fill_order : Nat := 1
  resolution_unit : Nat := 1
  resolution_x : Nat × Nat := (1, 1)
  resolution_y : Nat × Nat := (1, 1)
  photometric_interpertation : Nat := 1
  is_tiled : Bool := false
  rows_per_strip : Nat := 0
  strip_count : Nat := 0
  strip_offsets : List Nat := []
  strip_byte_counts : List Nat := []
  description : List Nat := []
deriving DecidableEq

/-- `tiff::reader::ReaderFile`. -/
structure ReaderFile where
  first_record_offset : Nat := 0
  next_ifd_offset : Nat := 0
  system_byte_order : ByteOrder := ByteOrder.Unknown
  file_byte_order : ByteOrder := ByteOrder.Unknown
  size : Nat := 0
  current_frame : ReaderFrame := {}
  stream : ByteStream := ⟨[], 0, false⟩
deriving DecidableEq

/-- `tiff::reader::ReaderPrivate` (the unused `tiff_path`/`last_error`
fields are dropped). -/
structure ReaderPrivate where
  file : ReaderFile := {}
  good : Bool := false
deriving DecidableEq

/-- One decoded directory entry (`tiff::reader::IFD`); `tag` and `type`
carry the raw 16-bit values. -/
structure IFD where
  tag : Nat := 256
  type : Nat := 1
  count : Nat := 0
  value : Nat := 0
  value2 : Nat := 0
  pvalue : List Nat := []
  pvalue2 : List Nat := []
deriving DecidableEq

def ReaderFile.clearStream (f : ReaderFile) : ReaderFile :=
  { f with stream := f.stream.clear }

def ReaderFile.seekAbsF (f : ReaderFile) (n : Nat) : ReaderFile :=
  { f with stream := f.stream.seekAbs n }

def ReaderFile.seekCurF (f : ReaderFile) (n : Nat) : ReaderFile :=
  { f with stream := f.stream.seekCur n }

/-- `ReaderPrivate::byte_swap_if_need` for a `w`-byte integral value: the
generic `util::byte_swap` template is the identity, so 1-byte values are
never swapped. -/
def byte_swap_if_need (f : ReaderFile) (w v : Nat) : Nat :=
  if f.system_byte_order ≠ f.file_byte_order then
    if w = 2 then byte_swap16 v
    else if w = 4 then byte_swap32 v
    else if w = 8 then byte_swap64 v
    else v
  else v

/-- `ReaderPrivate::read<T>` for an integral `T` of `w` bytes: when the
stream is good, read `w` raw bytes into a zero value (unwritten high
bytes stay zero on a short read) and swap if host and file order differ;
otherwise return zero and leave the stream untouched. -/
def readW (f : ReaderFile) (w : Nat) : Nat × ReaderFile :=
  if f.stream.fail then (0, f)
  else
    let r := f.stream.readChars w
    let raw := assembleHost f.system_byte_order (r.1 ++ List.replicate (w - r.1.length) 0)
    (byte_swap_if_need f w raw, { f with stream := r.2 })

/-- Sequential `read<T>` of `n` values of width `w` (the per-type value
loops of `read_ifd`). -/
def readListW (w : Nat) : Nat → ReaderFile → List Nat × ReaderFile
  | 0, f => ([], f)
  | n + 1, f =>
    let r := readW f w
    let rest := readListW w n r.2
    (r.1 :: rest.1, rest.2)

/-- Sequential reads of `n` `(numerator, denominator)` pairs of `uint32_t`
(the `Rational` loop of `read_ifd`). -/
def readPairs : Nat → ReaderFile → (List Nat × List Nat) × ReaderFile
  | 0, f => (([], []), f)
  | n + 1, f =>
    let (a, f1) := readW f 4
    let (b, f2) := readW f1 4
    let ((ns, ds), f3) := readPairs n f2
    ((a :: ns, b :: ds), f3)

/-- The switch over the declared type in `ReaderPrivate::read_ifd`
(lines decoding the 4-byte value-or-offset slot).  Returns
`((pvalue, pvalue2, default-case value, pos_changed), stream state)`.
The inline `for` loops that read a full slot but keep only `count`
values are rendered as "read all, take `count`".  Note the Byte/ASCII
indirect branch: faithful to the source, it reads and bounds-checks the
offset but performs no seek before reading the `count` byte values. -/
def decode_slot (typev countv : Nat) (fc : ReaderFile) :
    (List Nat × List Nat × Nat × Bool) × ReaderFile :=
  if typev = 1 ∨ typev = 2 then
    if countv > 0 then
      if countv ≤ 4 then
        let r := readListW 1 4 fc
        ((r.1.take countv, [], 0, false), r.2)
      else
        let ro := readW fc 4
        if ro.1 + countv * 1 ≤ ro.2.size then
          let r := readListW 1 countv ro.2
          ((r.1, [], 0, true), r.2)
        else
          (([], [], 0, true), ro.2)
    else
      (([], [], 0, false), fc)
  else if typev = 3 then
    if countv ≤ 2 then
      let r := readListW 2 2 fc
      ((r.1.take countv, [], 0, false), r.2)
    else
      let ro := readW fc 4
      if ro.1 + countv * 2 ≤ ro.2.size then
        let r := readListW 2 countv ((ro.2.clearStream).seekAbsF ro.1)
        ((r.1, [], 0, true), r.2)
      else
        (([], [], 0, true), ro.2)
  else if typev = 4 then
    if countv ≤ 1 then
      let r := readW fc 4
      (([r.1], [], 0, false), r.2)
    else
      let ro := readW fc 4
      if ro.1 + countv * 4 ≤ ro.2.size then
        let r := readListW 4 countv ((ro.2.clearStream).seekAbsF ro.1)
        ((r.1, [], 0, true), r.2)
      else
        (([], [], 0, true), ro.2)
  else if typev = 5 then
    let ro := readW fc 4
    if ro.1 + countv * 4 ≤ ro.2.size then
      let r := readPairs countv ((ro.2.clearStream).seekAbsF ro.1)
      ((r.1.1, r.1.2, 0, true), r.2)
    else
      (([], [], 0, true), ro.2)
  else
    let r := readW fc 4
    (([], [], r.1, false), r.2)

/-- `ReaderPrivate::read_ifd`: decode one 12-byte directory entry. -/
def read_ifd (f0 : ReaderFile) : IFD × ReaderFile :=
  let tagv := (readW f0 2).1
  let fa := (readW f0 2).2
  let typev := (readW fa 2).1
  let fb := (readW fa 2).2
  let countv := (readW fb 4).1
  let fc := (readW fb 4).2
  let pos := fc.stream.pos
  let step := decode_slot typev countv fc
  let pv := step.1.1
  let pv2 := step.1.2.1
  let v0 := step.1.2.2.1
  let pos_changed := step.1.2.2.2
  let f4 := step.2
  let value := if pv ≠ [] then pv.headD 0 else v0
  let value2 := if pv2 ≠ [] then pv2.headD 0 else 0
  let f5 := if pos_changed then ((f4.clearStream).seekAbsF pos).seekCurF 4 else f4
  ({ tag := tagv, type := typev, count := countv, value := value, value2 := value2,
     pvalue := pv, pvalue2 := pv2 }, f5)

/-- The per-entry tag dispatch of `ReaderPrivate::read_next_frame`
(`switch (ifd.tag)`): updates the frame under construction and the
aggregate error.  `description` keeps the raw `(char)` casts as bytes
modulo 256. -/
def apply_ifd (fr : ReaderFrame) (err : Error) (d : IFD) : ReaderFrame × Error :=
  if d.tag = 256 then ({ fr with width := d.value }, err)
  else if d.tag = 257 then ({ fr with image_length := d.value }, err)
  else if d.tag = 258 then
    if d.count > 0 ∧ d.pvalue ≠ [] then
      let bps := d.pvalue.headD 0
      if d.pvalue.all (fun x => x = bps) then
        ({ fr with bits_per_sample := bps }, err)
      else
        ({ fr with bits_per_sample := bps }, Error.MultiSampleSizeNotSupport)
    else
      ({ fr with bits_per_sample := d.value }, err)
  else if d.tag = 259 then ({ fr with compression := d.value }, err)
  else if d.tag = 273 then
    if d.count > 0 ∧ d.pvalue ≠ [] then
      ({ fr with strip_count := d.count,
                 strip_offsets := fr.strip_offsets ++ d.pvalue }, err)
    else (fr, err)
  else if d.tag = 277 then ({ fr with samples_per_pixel := d.value }, err)
  else if d.tag = 278 then ({ fr with rows_per_strip := d.value }, err)
  else if d.tag = 339 then ({ fr with sample_format := d.value }, err)
  else if d.tag = 270 then
    if d.count > 0 ∧ d.pvalue ≠ [] then
      ({ fr with description := d.pvalue.map (fun v => v % 256) }, err)
    else (fr, err)
  else if d.tag = 279 then
    if d.count > 0 ∧ d.pvalue ≠ [] then
      ({ fr with strip_count := d.count,
                 strip_byte_counts := fr.strip_byte_counts ++ d.pvalue }, err)
    else (fr, err)
  else if d.tag = 284 then ({ fr with planar_config := d.value }, err)
  else if d.tag = 274 then ({ fr with orientation := d.value }, err)
  else if d.tag = 262 then ({ fr with photometric_interpertation := d.value }, err)
  else if d.tag = 266 then ({ fr with fill_order := d.value }, err)
  else if d.tag = 325 ∨ d.tag = 323 ∨ d.tag = 324 ∨ d.tag = 322 then
    ({ fr with is_tiled := true }, err)
  else if d.tag = 282 then ({ fr with resolution_x := (d.value, d.value2) }, err)
  else if d.tag = 283 then ({ fr with resolution_y := (d.value, d.value2) }, err)
  else if d.tag = 296 then ({ fr with resolution_unit := d.value }, err)
  else (fr, err)

/-- The entry loop of `ReaderPrivate::read_next_frame`: decode `n`
directory entries in stream order, dispatching each by tag. -/
def process_entries : Nat → ReaderFile → Error → ReaderFile × Error
  | 0, f, err => (f, err)
  | n + 1, f, err =>
    let (d, f1) := read_ifd f
    let (fr, err1) := apply_ifd f1.current_frame err d
    process_entries n { f1 with current_frame := fr } err1

/-- `ReaderPrivate::read_next_frame` (the frame navigator advance).  The
current frame is freshly zero-valued before the offset check, exactly as
in the source. -/
def ReaderPrivate.read_next_frame (p : ReaderPrivate) : Error × ReaderPrivate :=
  let f := { p.file with current_frame := {} }
  if f.next_ifd_offset ≠ 0 ∧ f.next_ifd_offset + 2 < f.size then
    let f1 := (f.clearStream).seekAbsF f.next_ifd_offset
    let (ifd_count, f2) := readW f1 2
    let (f3, err) := process_entries ifd_count f2 Error.NoError
    let f4 := { f3 with current_frame :=
      { f3.current_frame with height := f3.current_frame.image_length } }
    let f5 := (f4.clearStream).seekAbsF (f4.next_ifd_offset + 2 + 12 * ifd_count)
    let (next, f6) := readW f5 4
    let f7 := { f6 with next_ifd_offset := next }
    (err, { file := f7, good := decide (err = Error.NoError) })
  else
    (Error.NoMoreImagesInTiff, { file := f, good := false })

/-- Continuation of `ReaderPrivate::open` after the byte-order marker has
been decoded. -/
def open_after_order (f : ReaderFile) : Error × ReaderPrivate :=
  let (magic, f1) := readW f 2
  if magic ≠ 42 then (Error.InvalidTiffMagicNumber, { file := f1, good := false })
  else
    let (fro, f2) := readW f1 4
    let f3 := { f2 with first_record_offset := fro, next_ifd_offset := fro }
    ReaderPrivate.read_next_frame { file := f3, good := false }

/-- `ReaderPrivate::open`.  The filesystem open and the
`util::get_byte_order` host probe are outside the embedding: the caller
supplies the file bytes and the detected host order, and the
always-succeeding in-memory stream replaces the `ifstream`
(`OpenFileFailed` is therefore not reachable here).  The size probe
(`ignore` + `gcount` + rewind) becomes `data.length` with the cursor
reset to 0. -/
def open_reader (sys : ByteOrder) (data : List Nat) : Error × ReaderPrivate :=
  let f0 : ReaderFile :=
    { system_byte_order := sys, size := data.length, stream := ⟨data, 0, false⟩ }
  let (tiffid, s) := f0.stream.readChars 2
  let f := { f0 with stream := s }
  if tiffid.getD 0 0 = 73 ∧ tiffid.getD 1 0 = 73 then
    open_after_order { f with file_byte_order := ByteOrder.LittleEndian }
  else if tiffid.getD 0 0 = 77 ∧ tiffid.getD 1 0 = 77 then
    open_after_order { f with file_byte_order := ByteOrder.BigEndian }
  else
    (Error.InvalidTiffByteOrder, { file := f, good := false })

/-- `Reader::has_next_frame`. -/
def Reader.has_next_frame (p : ReaderPrivate) : Bool :=
  p.good && decide (0 < p.file.next_ifd_offset)
    && decide (p.file.next_ifd_offset < p.file.size)

/-- The public `Reader::read_next_frame`. -/
def Reader.read_next_frame (p : ReaderPrivate) : Error × ReaderPrivate :=
  if Reader.has_next_frame p then p.read_next_frame
  else (Error.NoMoreImagesInTiff, p)

/-- The `while (next_offset > 0)` loop of `Reader::count_frames`.  The
`uint16_t count = read<uint16_t>() * 12` truncation is kept.  `fuel`
bounds the walk (the C++ loop does not terminate on a cyclic IFD chain);
`none` stands for non-termination within `fuel` steps. -/
def count_frames_loop : Nat → ReaderFile → Nat → Nat → Option (Nat × ReaderFile)
  | 0, f, next_offset, frames =>
    if next_offset > 0 then none else some (frames, f)
  | fuel + 1, f, next_offset, frames =>
    if next_offset > 0 then
      let f1 := (f.clearStream).seekAbsF next_offset
      let (c, f2) := readW f1 2
      let count := c * 12 % U16
      let f3 := f2.seekCurF count
      let (next, f4) := readW f3 4
      count_frames_loop fuel f4 next (frames + 1)
    else some (frames, f)

/-- `Reader::count_frames`. -/
def Reader.count_frames (p : ReaderPrivate) (fuel : Nat) : Option (Nat × ReaderPrivate) :=
  if p.good then
    let pos := p.file.stream.pos
    match count_frames_loop fuel p.file p.file.first_record_offset 0 with
    | none => none
    | some (frames, f) =>
      some (frames, { p with file := (f.clearStream).seekAbsF pos })
  else some (0, p)

/-- Write `bytes` into `buffer` starting at index `i`: the
`memcpy`/`stream.read` into `buffer.data() + i`.  Call sites of the
source stay in bounds (out-of-bounds writes are undefined behaviour in
the C++); the theorems only rely on in-bounds instances. -/
def writeAt (buffer : List Nat) (i : Nat) (bytes : List Nat) : List Nat :=
  buffer.take i ++ bytes ++ buffer.drop (i + bytes.length)

/-- The planar / single-sample strip walk of
`ReaderPrivate::get_sample_data_internal`.  `k` counts the remaining
iterations, so the current strip index is `strip_count - k`.  All
`uint32_t` state is reduced modulo `2^32`; `.at(strip)` is rendered as
`getD` (in-bounds at every reachable call, cf. the strip-table
invariant). -/
def planar_loop (fr : ReaderFrame) (sStart sEnd : Nat) :
    Nat → Nat → Nat → List Nat → ByteStream → Error → List Nat × ByteStream × Error
  | 0, _, _, buffer, s, err => (buffer, s, err)
  | k + 1, fileIdx, outIdx, buffer, s, err =>
    let strip := fr.strip_count - (k + 1)
    let strip_size_bytes := fr.strip_byte_counts.getD strip 0
    let strip_offset_bytes := fr.strip_offsets.getD strip 0
    match do_ranges_overlap ⟨sStart, sEnd⟩ ⟨fileIdx, (fileIdx + strip_size_bytes) % U32⟩ with
    | some r =>
      let count_bytes_to_read := usub64 r.y r.x % U32
      let seek_offset := strip_offset_bytes + usub64 r.x fileIdx
      let s1 := (s.clear).seekAbs seek_offset
      let (bytes, s2) := s1.readChars count_bytes_to_read
      let err1 := if bytes.length ≠ count_bytes_to_read then Error.StripDataLost else err
      let buffer1 := writeAt buffer outIdx bytes
      planar_loop fr sStart sEnd k ((fileIdx + strip_size_bytes) % U32)
        ((outIdx + count_bytes_to_read) % U32) buffer1 s2 err1
    | none =>
      if fileIdx > sEnd then (buffer, s, err)
      else planar_loop fr sStart sEnd k ((fileIdx + strip_size_bytes) % U32)
        outIdx buffer s err

/-- The innermost copy of the chunky path (`for (int i = 0; i < bps/8;
++i)`): it copies the same `w` source bytes `n` times, advancing the
output cursor by `w` each time. -/
def copy_repeat (w strip_i : Nat) (stripdata : List Nat) :
    Nat → Nat → List Nat → Nat × List Nat
  | 0, outIdx, buffer => (outIdx, buffer)
  | n + 1, outIdx, buffer =>
    let buffer1 := writeAt buffer outIdx ((stripdata.drop strip_i).take w)
    copy_repeat w strip_i stripdata n ((outIdx + w) % U32) buffer1

/-- The `strip_i` loop of the chunky path: starts at
`sample * bits_per_sample / 8` and strides by
`bits_per_sample / 8 * samples_per_pixel`.  `fuel` makes the recursion
structural; the caller passes `stripsize_bytes + 1`, enough iterations
whenever the stride is positive (on the only reachable path
`samples_per_pixel > 1`, so the stride is at least 2). -/
def chunky_inner (w step stripsize_bytes : Nat) (stripdata : List Nat) :
    Nat → Nat → Nat → Nat → List Nat → Nat × Nat × List Nat
  | 0, _, outIdx, fileIdx, buffer => (outIdx, fileIdx, buffer)
  | fuel + 1, strip_i, outIdx, fileIdx, buffer =>
    if strip_i < stripsize_bytes then
      let (outIdx1, buffer1) := copy_repeat w strip_i stripdata w outIdx buffer
      chunky_inner w step stripsize_bytes stripdata fuel (strip_i + step)
        outIdx1 ((fileIdx + stripsize_bytes) % U32) buffer1
    else (outIdx, fileIdx, buffer)

/-- The strip loop of the chunky path (lines reading whole strips into a
reused scratch buffer).  `k` counts remaining iterations as in
`planar_loop`; the scratch buffer keeps stale bytes from earlier strips
past the freshly read prefix, as `stream.read` only overwrites
`gcount()` bytes. -/
def chunky_loop (fr : ReaderFrame) (sample : Nat) :
    Nat → Nat → Nat → List Nat → Nat → List Nat → ByteStream → Error →
      List Nat × ByteStream × Error
  | 0, _, _, _, _, buffer, s, err => (buffer, s, err)
  | k + 1, fileIdx, outIdx, stripdata, last_stripsize_bytes, buffer, s, err =>
    let strip := fr.strip_count - (k + 1)
    let stripsize_bytes := fr.strip_byte_counts.getD strip 0
    let strip_offset_bytes := fr.strip_offsets.getD strip 0
    let (stripdata1, last1) :=
      if stripsize_bytes > last_stripsize_bytes then
        (List.replicate stripsize_bytes 0, stripsize_bytes)
      else (stripdata, last_stripsize_bytes)
    let s1 := (s.clear).seekAbs strip_offset_bytes
    let (bytes, s2) := s1.readChars stripsize_bytes
    let err1 := if bytes.length ≠ stripsize_bytes then Error.StripDataLost else err
    let stripdata2 := writeAt stripdata1 0 bytes
    let w := fr.bits_per_sample / 8
    let step := w * fr.samples_per_pixel
    let t := chunky_inner w step stripsize_bytes stripdata2 (stripsize_bytes + 1)
      (sample * fr.bits_per_sample % U32 / 8) outIdx fileIdx buffer
    chunky_loop fr sample k t.2.1 t.1 stripdata2 last1 t.2.2 s2 err1

/-- Byte swap applied to one multi-byte element value (dispatch over the
element width used by the post-hoc buffer swap). -/
def swap_word (w v : Nat) : Nat :=
  if w = 2 then byte_swap16 v
  else if w = 4 then byte_swap32 v
  else byte_swap64 v

/-- In-place byte swap of the output buffer after the chunky path:
element `x` of width `w` is read in host order, byte-swapped, and stored
back; `k` elements starting at element index `x` remain. -/
def swap_chunks (sys : ByteOrder) (w : Nat) : Nat → Nat → List Nat → List Nat
  | _, 0, buffer => buffer
  | x, k + 1, buffer =>
    let chunk := (buffer.drop (x * w)).take w
    let v := swap_word w (assembleHost sys chunk)
    swap_chunks sys w (x + 1) k (writeAt buffer (x * w) (serializeHost sys w v))

/-- The chunky extraction strategy: the strip loop followed by the
conditional post-hoc byte swap of the whole output buffer (element count
`width * height`, reduced modulo `2^32` as in the `uint32_t` product). -/
def chunky_extract (sys ford : ByteOrder) (fr : ReaderFrame) (sample : Nat)
    (buffer : List Nat) (s : ByteStream) (err : Error) :
    List Nat × ByteStream × Error :=
  let t := chunky_loop fr sample fr.strip_count 0 0 [] 0 buffer s err
  let n := fr.width * fr.height % U32
  let buffer1 :=
    if sys ≠ ford then
      if fr.bits_per_sample = 8 then t.1
      else if fr.bits_per_sample = 16 then swap_chunks sys 2 0 n t.1
      else if fr.bits_per_sample = 32 then swap_chunks sys 4 0 n t.1
      else if fr.bits_per_sample = 64 then swap_chunks sys 8 0 n t.1
      else t.1
    else t.1
  (buffer1, t.2.1, t.2.2)

/-- Final materialization (the trailing loop of
`get_sample_data_internal`): reinterpret the byte buffer as elements of
the resolved storage width, read in host byte order.  A
`bits_per_sample` outside {8,16,32,64} leaves the default-constructed
variant (a zero `uint8_t`), though the preceding checks exclude it. -/
def materialize_element (sys : ByteOrder) (bps : Nat) (buffer : List Nat) (i : Nat) :
    variant_t :=
  if bps = 8 then variant_t.u8 (buffer.getD i 0)
  else if bps = 16 then variant_t.u16 (assembleHost sys ((buffer.drop (i * 2)).take 2))
  else if bps = 32 then variant_t.u32 (assembleHost sys ((buffer.drop (i * 4)).take 4))
  else if bps = 64 then variant_t.u64 (assembleHost sys ((buffer.drop (i * 8)).take 8))
  else variant_t.u8 0

/-- `ReaderPrivate::get_sample_data_internal`.  `err0` is the incoming
value of the in-out error parameter.  Note two structural properties kept
faithful to the source: the chunky strategy is the `else` of the
strip-presence test (not of the planar test), and the trailing
`err = Error::NoError` overwrites any `StripDataLost` recorded by the
strip loops. -/
def ReaderPrivate.get_sample_data_internal (p : ReaderPrivate) (sample : Nat)
    (err0 : Error) : List variant_t × Error × ReaderPrivate :=
  let fr := p.file.current_frame
  if fr.compression ≠ 1 then ([], Error.CompressionNotSupport, p)
  else if fr.is_tiled then ([], Error.TiledNotSupport, p)
  else if fr.orientation ≠ 1 then ([], Error.OrientationNotSupport, p)
  else if fr.photometric_interpertation = 3 then
    ([], Error.PhotometricInterpretationNotSupport, p)
  else if fr.width = 0 ∨ fr.height = 0 then ([], Error.InvalidImageSize, p)
  else if ¬(fr.bits_per_sample = 8 ∨ fr.bits_per_sample = 16 ∨
      fr.bits_per_sample = 32 ∨ fr.bits_per_sample = 64) then
    ([], Error.InvalidBitPerSample, p)
  else
    let sample_image_size_bytes :=
      fr.width * fr.height % U32 * fr.bits_per_sample % U32 / 8
    let buffer0 := List.replicate sample_image_size_bytes 0
    let pos := p.file.stream.pos
    let t :=
      if fr.strip_count > 0 ∧ fr.strip_byte_counts ≠ [] ∧ fr.strip_offsets ≠ [] then
        if fr.samples_per_pixel = 1 ∨ fr.planar_config = 2 then
          let sample_start_bytes := sample * sample_image_size_bytes % U32
          let sample_end_bytes := (sample_start_bytes + sample_image_size_bytes) % U32
          planar_loop fr sample_start_bytes sample_end_bytes fr.strip_count
            0 0 buffer0 p.file.stream err0
        else (buffer0, p.file.stream, err0)
      else if fr.samples_per_pixel > 1 ∧ fr.planar_config = 1 then
        chunky_extract p.file.system_byte_order p.file.file_byte_order fr sample
          buffer0 p.file.stream err0
      else (buffer0, p.file.stream, err0)
    let result := (List.range (fr.width * fr.height % U32)).map
      (materialize_element p.file.system_byte_order fr.bits_per_sample t.1)
    let s2 := (t.2.1.clear).seekAbs pos
    (result, Error.NoError, { p with file := { p.file with stream := s2 } })

/-- The public `Reader::get_sample_data`. -/
def Reader.get_sample_data (p : ReaderPrivate) (sample : Nat) (err0 : Error) :
    List variant_t × Error × ReaderPrivate :=
  if p.good then p.get_sample_data_internal sample err0
  else ([], Error.ReaderIsNotGoodYet, p)

/-! Concrete fixtures used by the claim theorems and witnesses. -/

/-- A little-endian TIFF with three zero-entry IFDs chained at offsets
8, 14 and 20 (header: "II", magic 42, first IFD offset 8; each IFD is a
zero entry count plus the next-IFD offset; the last offset is 0). -/
def c5data : List Nat :=
  [73, 73, 42, 0, 8, 0, 0, 0,
   0, 0, 14, 0, 0, 0,
   0, 0, 20, 0, 0, 0,
   0, 0, 0, 0, 0, 0]

/-- The session obtained by opening the 3-page fixture. -/
def c5p : ReaderPrivate := (open_reader ByteOrder.LittleEndian c5data).2

/-- Counts how many `Reader::read_next_frame` calls succeed in sequence
(the public call refuses exactly when `has_next_frame` is false, so this
is also the number of successes before `has_next_frame` becomes false). -/
def count_successful_reads : Nat → ReaderPrivate → Nat
  | 0, _ => 0
  | fuel + 1, p =>
    let r := Reader.read_next_frame p
    if r.1 = Error.NoError then count_successful_reads fuel r.2 + 1 else 0

/-- Planar-path fixture for the [0,100) window over strip spans [0,50)
and [50,100): 8-bit single-sample 10x10 frame, two 50-byte strips stored
at file offsets 120 and 30, over a 200-byte file of pairwise distinct
bytes. -/
def c3p : ReaderPrivate :=
  { file := { system_byte_order := ByteOrder.LittleEndian,
              file_byte_order := ByteOrder.LittleEndian,
              size := 200,
              current_frame := { width := 10, height := 10, bits_per_sample := 8,
                                 samples_per_pixel := 1,
                                 strip_count := 2, strip_offsets := [120, 30],
                                 strip_byte_counts := [50, 50] },
              stream := ⟨List.range 200, 0, false⟩ },
    good := true }

/-- Planar encoding of the 2-pixel, 2-sample logical image
[(7,9), (8,10)]: the plane of sample 0 is [7,8], the plane of sample 1
is [9,10], both in one 4-byte strip at offset 0. -/
def c1planar : ReaderPrivate :=
  { file := { system_byte_order := ByteOrder.LittleEndian,
              file_byte_order := ByteOrder.LittleEndian,
              size := 4,
              current_frame := { width := 2, height := 1, bits_per_sample := 8,
                                 samples_per_pixel := 2, planar_config := 2,
                                 strip_count := 1, strip_offsets := [0],
                                 strip_byte_counts := [4] },
              stream := ⟨[7, 8, 9, 10], 0, false⟩ },
    good := true }

/-- Chunky encoding of the same logical image [(7,9), (8,10)]: samples
interleaved per pixel in one 4-byte strip at offset 0. -/
def c1chunky : ReaderPrivate :=
  { file := { system_byte_order := ByteOrder.LittleEndian,
              file_byte_order := ByteOrder.LittleEndian,
              size := 4,
              current_frame := { width := 2, height := 1, bits_per_sample := 8,
                                 samples_per_pixel := 2, planar_config := 1,
                                 strip_count := 1, strip_offsets := [0],
                                 strip_byte_counts := [4] },
              stream := ⟨[7, 9, 8, 10], 0, false⟩ },
    good := true }

/-- Short-strip-read fixture: one declared 2-byte strip at offset 5 of a
6-byte file, so the strip read obtains only 1 byte (the value 9). -/
def c4p : ReaderPrivate :=
  { file := { system_byte_order := ByteOrder.LittleEndian,
              file_byte_order := ByteOrder.LittleEndian,
              size := 6,
              current_frame := { width := 2, height := 1, bits_per_sample := 8,
                                 samples_per_pixel := 1,
                                 strip_count := 1, strip_offsets := [5],
                                 strip_byte_counts := [2] },
              stream := ⟨[0, 1, 2, 3, 4, 9], 0, false⟩ },
    good := true }

/-- A 12-byte directory entry of type ASCII (2) with count 0, positioned
at cursor 0. -/
def c2ce_file : ReaderFile :=
  { system_byte_order := ByteOrder.LittleEndian,
    file_byte_order := ByteOrder.LittleEndian,
    size := 12,
    stream := ⟨[14, 1, 2, 0, 0, 0, 0, 0, 5, 5, 5, 5], 0, false⟩ }

/-- A 12-byte directory entry of type Long (4) with count 1. -/
def c2w_file : ReaderFile :=
  { system_byte_order := ByteOrder.LittleEndian,
    file_byte_order := ByteOrder.LittleEndian,
    size := 12,
    stream := ⟨[0, 1, 4, 0, 1, 0, 0, 0, 9, 0, 0, 0], 0, false⟩ }

/-- A Byte-type entry with count 5 at cursor 0 of a 32-byte file: the
value slot holds the offset 20, the five bytes [101..105] follow the
entry at position 12, and the five bytes [201..205] sit at offset 20. -/
def c6file : ReaderFile :=
  { system_byte_order := ByteOrder.LittleEndian,
    file_byte_order := ByteOrder.LittleEndian,
    size := 32,
    stream := ⟨[1, 0, 1, 0, 5, 0, 0, 0, 20, 0, 0, 0,
                101, 102, 103, 104, 105, 0, 0, 0,
                201, 202, 203, 204, 205, 0, 0, 0, 0, 0, 0, 0], 0, false⟩ }

/-- A 12-byte directory entry of type Byte (1) with count 0, positioned
at cursor 0. -/
def c7ce_file : ReaderFile :=
  { system_byte_order := ByteOrder.LittleEndian,
    file_byte_order := ByteOrder.LittleEndian,
    size := 12,
    stream := ⟨[3, 1, 1, 0, 0, 0, 0, 0, 8, 8, 8, 8], 0, false⟩ }

/-- A 12-byte directory entry of type Short (3) with count 2. -/
def c7w_file : ReaderFile :=
  { system_byte_order := ByteOrder.LittleEndian,
    file_byte_order := ByteOrder.LittleEndian,
    size := 12,
    stream := ⟨[2, 1, 3, 0, 2, 0, 0, 0, 7, 0, 11, 0], 0, false⟩ }

/-- A good session whose IFD chain is empty (first record offset 0) and
whose cursor rests at position 5: `count_frames` must restore the
cursor. -/
def c7wp : ReaderPrivate :=
  { file := { system_byte_order := ByteOrder.LittleEndian,
              file_byte_order := ByteOrder.LittleEndian,
              size := 40, first_record_offset := 0,
              stream := ⟨List.replicate 40 0, 5, false⟩ },
    good := true }

/-- The session returned by `count_frames` on `c7wp`. -/
def c7wq : ReaderPrivate := ((Reader.count_frames c7wp 1).getD (0, { })).2

/-- A good session with a default (zero-width) frame and the cursor at
position 3: `get_sample_data_internal` rejects it but must leave the
cursor in place. -/
def c7gp : ReaderPrivate :=
  { file := { system_byte_order := ByteOrder.LittleEndian,
              file_byte_order := ByteOrder.LittleEndian,
              size := 10,
              stream := ⟨List.replicate 10 0, 3, false⟩ },
    good := true }

/-- A never-opened session: `has_next_frame` is false. -/
def c10p : ReaderPrivate := {}

/-- A good session whose frame passes every extraction precondition but
has no strip offsets and no strip byte counts at all (2x2, 16-bit,
3 samples per pixel, chunky, with differing host and file byte order so
the post-hoc swap path runs on the zero buffer). -/
def c9p : ReaderPrivate :=
  { file := { system_byte_order := ByteOrder.LittleEndian,
              file_byte_order := ByteOrder.BigEndian,
              size := 10,
              current_frame := { width := 2, height := 2, bits_per_sample := 16,
                                 samples_per_pixel := 3, planar_config := 1 },
              stream := ⟨List.replicate 10 0, 0, false⟩ },
    good := true }

/-- A frame passing the extraction preconditions, used to witness the
amended short-read claim: identical to `c4p` (short strip read), but the
witness only needs the preconditions. -/
def c4wp : ReaderPrivate :=
  { file := { system_byte_order := ByteOrder.LittleEndian,
              file_byte_order := ByteOrder.LittleEndian,
              size := 6,
              current_frame := { width := 3, height := 1, bits_per_sample := 8,
                                 samples_per_pixel := 1,
                                 strip_count := 1, strip_offsets := [4],
                                 strip_byte_counts := [3] },
              stream := ⟨[0, 1, 2, 3, 4, 9], 0, false⟩ },
    good := true }

/-- The file state with the cursor moved to `p` and everything else kept
(proof bookkeeping for the cursor lemmas). -/
@[reducible] def filePos (f : ReaderFile) (p : Nat) : ReaderFile :=
  { first_record_offset := f.first_record_offset, next_ifd_offset := f.next_ifd_offset,
    system_byte_order := f.system_byte_order, file_byte_order := f.file_byte_order,
    size := f.size, current_frame := f.current_frame,
    stream := { data := f.stream.data, pos := p, fail := f.stream.fail } }

/-! Bitwise helper lemmas for the byte-swap functions. -/

lemma testBit_div_pow (n k m : Nat) : (n / 2 ^ k).testBit m = n.testBit (k + m) := by
  simp [Nat.testBit_to_div_mod, Nat.div_div_eq_div_mul, pow_add]

lemma lor_disjoint (k a b : Nat) (h : a < 2 ^ k) : a ||| 2 ^ k * b = a + 2 ^ k * b := by
  apply Nat.eq_of_testBit_eq
  intro i
  rcases Nat.lt_or_ge i k with hik | hik
  · have h2 : (2 ^ k * b).testBit i = false := by
      rw [Nat.mul_comm, ← Nat.shiftLeft_eq, Nat.testBit_shiftLeft]
      simp [Nat.not_le.mpr hik]
    have h3 : (a + 2 ^ k * b).testBit i = a.testBit i := by
      have hm := Nat.testBit_mod_two_pow (a + 2 ^ k * b) k i
      rw [Nat.add_mul_mod_self_left, Nat.mod_eq_of_lt h] at hm
      rw [hm]
      simp [hik]
    rw [Nat.testBit_lor, h2, h3, Bool.or_false]
  · obtain ⟨j, rfl⟩ : ∃ j, i = k + j := ⟨i - k, by omega⟩
    have ha : a.testBit (k + j) = false :=
      Nat.testBit_lt_two_pow
        (lt_of_lt_of_le h (Nat.pow_le_pow_right (by norm_num) (by omega)))
    have hb : (2 ^ k * b).testBit (k + j) = b.testBit j := by
      rw [Nat.mul_comm, ← Nat.shiftLeft_eq, Nat.testBit_shiftLeft]
      have : k + j - k = j := by omega
      simp [this]
    have hq : (a + 2 ^ k * b) / 2 ^ k = b := by
      rw [Nat.add_mul_div_left _ _ (Nat.pos_pow_of_pos k (by norm_num)),
          Nat.div_eq_of_lt h, Nat.zero_add]
    have hsum : (a + 2 ^ k * b).testBit (k + j) = b.testBit j := by
      rw [← testBit_div_pow, hq]
    rw [Nat.testBit_lor, ha, hb, hsum, Bool.false_or]

lemma and_mask_window (n j k : Nat) :
    n &&& ((2 ^ j - 1) <<< k) = n / 2 ^ k % 2 ^ j * 2 ^ k := by
  apply Nat.eq_of_testBit_eq
  intro i
  rw [Nat.testBit_and, Nat.testBit_shiftLeft, Nat.testBit_two_pow_sub_one]
  rw [show n / 2 ^ k % 2 ^ j * 2 ^ k = (n / 2 ^ k % 2 ^ j) <<< k from by
    rw [Nat.shiftLeft_eq]]
  rw [Nat.testBit_shiftLeft, Nat.testBit_mod_two_pow]
  rcases Nat.lt_or_ge i k with hik | hik
  · simp [Nat.not_le.mpr hik]
  · have hi : k + (i - k) = i := by omega
    rw [testBit_div_pow, hi]
    simp [hik, Bool.and_comm]

lemma byte_swap16_eq (n : Nat) (h : n < U16) :
    byte_swap16 n = n % 256 * 256 + n / 256 := by
  have hd : n / 256 < 256 := by unfold U16 at h; omega
  have h1 : n >>> 8 = n / 256 := by rw [Nat.shiftRight_eq_div_pow]
  have h2 : n <<< 8 = 256 * n := by rw [Nat.shiftLeft_eq]; ring
  have h3 : n / 256 ||| 256 * n = n / 256 + 256 * n := by
    have := lor_disjoint 8 (n / 256) n (by norm_num; exact hd)
    norm_num at this
    exact this
  unfold byte_swap16
  rw [h1, h2, h3]
  unfold U16
  omega

lemma byte_swap32_eq (n : Nat) :
    byte_swap32 n =
      n % 256 * 16777216 + n / 256 % 256 * 65536 + n / 65536 % 256 * 256
        + n / 16777216 % 256 := by
  have m0 : n &&& 0xFF = n % 256 := by
    have := Nat.and_pow_two_sub_one_eq_mod n 8
    norm_num at this
    exact this
  have m1 : n &&& 0xFF00 = n / 256 % 256 * 256 := by
    have := and_mask_window n 8 8
    norm_num [Nat.shiftLeft_eq] at this
    exact this
  have m2 : n &&& 0xFF0000 = n / 65536 % 256 * 65536 := by
    have := and_mask_window n 8 16
    norm_num [Nat.shiftLeft_eq] at this
    exact this
  have m3 : n &&& 0xFF000000 = n / 16777216 % 256 * 16777216 := by
    have := and_mask_window n 8 24
    norm_num [Nat.shiftLeft_eq] at this
    exact this
  unfold byte_swap32
  rw [m0, m1, m2, m3, Nat.shiftLeft_eq, Nat.shiftLeft_eq, Nat.shiftRight_eq_div_pow,
      Nat.shiftRight_eq_div_pow]
  norm_num
  omega

lemma byte_swap64_eq (n : Nat) :
    byte_swap64 n =
      n % 256 * 72057594037927936
        + n / 256 % 256 * 281474976710656
        + n / 65536 % 256 * 1099511627776
        + n / 16777216 % 256 * 4294967296
        + n / 4294967296 % 256 * 16777216
        + n / 1099511627776 % 256 * 65536
        + n / 281474976710656 % 256 * 256
        + n / 72057594037927936 % 256 := by
  have m0 : n &&& 0xFF = n % 256 := by
    have := Nat.and_pow_two_sub_one_eq_mod n 8
    norm_num at this
    exact this
  have m1 : n &&& 0xFF00 = n / 256 % 256 * 256 := by
    have := and_mask_window n 8 8
    norm_num [Nat.shiftLeft_eq] at this
    exact this
  have m2 : n &&& 0xFF0000 = n / 65536 % 256 * 65536 := by
    have := and_mask_window n 8 16
    norm_num [Nat.shiftLeft_eq] at this
    exact this
  have m3 : n &&& 0xFF000000 = n / 16777216 % 256 * 16777216 := by
    have := and_mask_window n 8 24
    norm_num [Nat.shiftLeft_eq] at this
    exact this
  have m4 : n &&& 0xFF00000000 = n / 4294967296 % 256 * 4294967296 := by
    have := and_mask_window n 8 32
    norm_num [Nat.shiftLeft_eq] at this
    exact this
  have m5 : n &&& 0xFF0000000000 = n / 1099511627776 % 256 * 1099511627776 := by
    have := and_mask_window n 8 40
    norm_num [Nat.shiftLeft_eq] at this
    exact this
  have m6 : n &&& 0xFF000000000000 = n / 281474976710656 % 256 * 281474976710656 := by
    have := and_mask_window n 8 48
    norm_num [Nat.shiftLeft_eq] at this
    exact this
  have m7 : n &&& 0xFF00000000000000 =
      n / 72057594037927936 % 256 * 72057594037927936 := by
    have := and_mask_window n 8 56
    norm_num [Nat.shiftLeft_eq] at this
    exact this
  unfold byte_swap64
  rw [m0, m1, m2, m3, m4, m5, m6, m7]
  rw [Nat.shiftLeft_eq, Nat.shiftLeft_eq, Nat.shiftLeft_eq, Nat.shiftLeft_eq,
      Nat.shiftRight_eq_div_pow, Nat.shiftRight_eq_div_pow,
      Nat.shiftRight_eq_div_pow, Nat.shiftRight_eq_div_pow]
  norm_num
  omega

lemma byte_swap32_bytes (b0 b1 b2 b3 : Nat) (h0 : b0 < 256) (h1 : b1 < 256)
    (h2 : b2 < 256) (h3 : b3 < 256) :
    byte_swap32 (b0 + 256 * b1 + 65536 * b2 + 16777216 * b3) =
      b3 + 256 * b2 + 65536 * b1 + 16777216 * b0 := by
  rw [byte_swap32_eq]
  omega

lemma byte_swap64_bytes (b0 b1 b2 b3 b4 b5 b6 b7 : Nat)
    (h0 : b0 < 256) (h1 : b1 < 256) (h2 : b2 < 256) (h3 : b3 < 256)
    (h4 : b4 < 256) (h5 : b5 < 256) (h6 : b6 < 256) (h7 : b7 < 256) :
    byte_swap64 (b0 + 256 * b1 + 65536 * b2 + 16777216 * b3 + 4294967296 * b4
        + 1099511627776 * b5 + 281474976710656 * b6 + 72057594037927936 * b7) =
      b7 + 256 * b6 + 65536 * b5 + 16777216 * b4 + 4294967296 * b3
        + 1099511627776 * b2 + 281474976710656 * b1 + 72057594037927936 * b0 := by
  rw [byte_swap64_eq]
  omega

/-- C8: round-trip of byte swapping — `swap16 (swap16 x) = x` for every
16-bit value, `swap32 (swap32 x) = x` for every 32-bit value, and
`swap64 (swap64 x) = x` for every 64-bit value. -/
theorem c8_byte_swap_involution :
    (∀ n, n < U16 → byte_swap16 (byte_swap16 n) = n) ∧
    (∀ n, n < U32 → byte_swap32 (byte_swap32 n) = n) ∧
    (∀ n, n < U64 → byte_swap64 (byte_swap64 n) = n) := by
  refine ⟨fun n h => ?_, fun n h => ?_, fun n h => ?_⟩
  · have h2 : n % 256 * 256 + n / 256 < U16 := by unfold U16 at h ⊢; omega
    rw [byte_swap16_eq n h, byte_swap16_eq _ h2]
    unfold U16 at h
    omega
  · unfold U32 at h
    obtain ⟨b0, b1, b2, b3, h0, h1, h2, h3, hn⟩ :
        ∃ b0 b1 b2 b3, b0 < 256 ∧ b1 < 256 ∧ b2 < 256 ∧ b3 < 256 ∧
          n = b0 + 256 * b1 + 65536 * b2 + 16777216 * b3 :=
      ⟨n % 256, n / 256 % 256, n / 65536 % 256, n / 16777216 % 256,
        by omega, by omega, by omega, by omega, by omega⟩
    subst hn
    rw [byte_swap32_bytes b0 b1 b2 b3 h0 h1 h2 h3,
        byte_swap32_bytes b3 b2 b1 b0 h3 h2 h1 h0]
  · unfold U64 at h
    obtain ⟨b0, b1, b2, b3, b4, b5, b6, b7, h0, h1, h2, h3, h4, h5, h6, h7, hn⟩ :
        ∃ b0 b1 b2 b3 b4 b5 b6 b7, b0 < 256 ∧ b1 < 256 ∧ b2 < 256 ∧ b3 < 256 ∧
          b4 < 256 ∧ b5 < 256 ∧ b6 < 256 ∧ b7 < 256 ∧
          n = b0 + 256 * b1 + 65536 * b2 + 16777216 * b3 + 4294967296 * b4
            + 1099511627776 * b5 + 281474976710656 * b6 + 72057594037927936 * b7 :=
      ⟨n % 256, n / 256 % 256, n / 65536 % 256, n / 16777216 % 256,
        n / 4294967296 % 256, n / 1099511627776 % 256, n / 281474976710656 % 256,
        n / 72057594037927936 % 256,
        by omega, by omega, by omega, by omega, by omega, by omega, by omega, by omega,
        by omega⟩
    subst hn
    rw [byte_swap64_bytes b0 b1 b2 b3 b4 b5 b6 b7 h0 h1 h2 h3 h4 h5 h6 h7,
        byte_swap64_bytes b7 b6 b5 b4 b3 b2 b1 b0 h7 h6 h5 h4 h3 h2 h1 h0]

theorem c8_witness :
    (43981 < U16 ∧ byte_swap16 (byte_swap16 43981) = 43981) ∧
    (305419896 < U32 ∧ byte_swap32 (byte_swap32 305419896) = 305419896) ∧
    (81985529216486895 < U64 ∧
      byte_swap64 (byte_swap64 81985529216486895) = 81985529216486895) :=
  ⟨⟨by decide, c8_byte_swap_involution.1 43981 (by decide)⟩,
   ⟨by decide, c8_byte_swap_involution.2.1 305419896 (by decide)⟩,
   ⟨by decide, c8_byte_swap_involution.2.2 81985529216486895 (by decide)⟩⟩

/-! Stream-advance lemmas for the cursor contracts. -/

lemma readChars_ok (s : ByteStream) (n : Nat) (hf : s.fail = false)
    (hin : s.pos + n ≤ s.data.length) :
    s.readChars n = ((s.data.drop s.pos).take n, { s with pos := s.pos + n }) := by
  have hav : n ≤ s.data.length - s.pos := by omega
  simp [ByteStream.readChars, hf, hav]

lemma readW_ok (f : ReaderFile) (w : Nat) (hf : f.stream.fail = false)
    (hin : f.stream.pos + w ≤ f.stream.data.length) :
    (readW f w).2 = { f with stream := { f.stream with pos := f.stream.pos + w } } := by
  simp [readW, hf, readChars_ok f.stream w hf hin]

lemma readListW_pos (w : Nat) : ∀ (n : Nat) (f : ReaderFile), f.stream.fail = false →
    f.stream.pos + w * n ≤ f.stream.data.length →
    (readListW w n f).2 =
      { f with stream := { f.stream with pos := f.stream.pos + w * n } } := by
  intro n
  induction n with
  | zero =>
    intro f hf hin
    simp [readListW]
  | succ n ih =>
    intro f hf hin
    have hmul : w * (n + 1) = w * n + w := by ring
    have hw : f.stream.pos + w ≤ f.stream.data.length := by omega
    simp only [readListW]
    rw [readW_ok f w hf hw]
    have h2 : ({ f with stream := { f.stream with pos := f.stream.pos + w } }
        : ReaderFile).stream.fail = false := by simp [hf]
    have h3 : ({ f with stream := { f.stream with pos := f.stream.pos + w } }
        : ReaderFile).stream.pos + w * n ≤
        ({ f with stream := { f.stream with pos := f.stream.pos + w } }
        : ReaderFile).stream.data.length := by simp; omega
    rw [ih _ h2 h3]
    simp
    have h4 : f.stream.pos + w + w * n = f.stream.pos + w * (n + 1) := by ring
    rw [h4]

lemma reposition_pos (g : ReaderFile) (t : Nat) :
    (((g.clearStream).seekAbsF t).seekCurF 4).stream.pos = t + 4 := by
  simp [ReaderFile.clearStream, ReaderFile.seekAbsF, ReaderFile.seekCurF,
        ByteStream.clear, ByteStream.seekAbs, ByteStream.seekCur]

lemma read_ifd_cursor (f : ReaderFile) (hf : f.stream.fail = false)
    (hin : f.stream.pos + 12 ≤ f.stream.data.length) :
    (read_ifd f).2.stream.pos =
      f.stream.pos + (if ((read_ifd f).1.type = 1 ∨ (read_ifd f).1.type = 2) ∧
          (read_ifd f).1.count = 0 then 8 else 12) := by
  have ha : (readW f 2).2 = filePos f (f.stream.pos + 2) := by
    rw [readW_ok f 2 hf (by omega)]
  have hb : (readW (filePos f (f.stream.pos + 2)) 2).2 = filePos f (f.stream.pos + 4) := by
    rw [readW_ok _ 2 (by simp [filePos, hf]) (by simp [filePos]; omega)]
  have hc : (readW (filePos f (f.stream.pos + 4)) 4).2 = filePos f (f.stream.pos + 8) := by
    rw [readW_ok _ 4 (by simp [filePos, hf]) (by simp [filePos]; omega)]
  simp only [read_ifd, ha, hb, hc]
  set tv := (readW (filePos f (f.stream.pos + 2)) 2).1 with htv
  set cv := (readW (filePos f (f.stream.pos + 4)) 4).1 with hcv
  by_cases h12 : tv = 1 ∨ tv = 2
  · by_cases hc0 : cv = 0
    · simp [decode_slot, filePos, h12, hc0]
    · have hpos : 0 < cv := Nat.pos_of_ne_zero hc0
      by_cases hc4 : cv ≤ 4
      · have hr := readListW_pos 1 4 (filePos f (f.stream.pos + 8))
          (by simp [filePos, hf]) (by simp [filePos]; omega)
        simp [decode_slot, filePos, h12, hc0, hpos, hc4, hr]
      · by_cases hbound : (readW (filePos f (f.stream.pos + 8)) 4).1 + cv ≤
            (readW (filePos f (f.stream.pos + 8)) 4).2.size
        · simp [decode_slot, filePos, h12, hc0, hpos, hc4, hbound, reposition_pos]
        · simp [decode_slot, filePos, h12, hc0, hpos, hc4, hbound, reposition_pos]
  · by_cases h3 : tv = 3
    · by_cases hc2 : cv ≤ 2
      · have hr := readListW_pos 2 2 (filePos f (f.stream.pos + 8))
          (by simp [filePos, hf]) (by simp [filePos]; omega)
        simp [decode_slot, filePos, h12, h3, hc2, hr]
      · by_cases hbound : (readW (filePos f (f.stream.pos + 8)) 4).1 + cv * 2 ≤
            (readW (filePos f (f.stream.pos + 8)) 4).2.size
        · simp [decode_slot, filePos, h12, h3, hc2, hbound, reposition_pos]
        · simp [decode_slot, filePos, h12, h3, hc2, hbound, reposition_pos]
    · by_cases h4 : tv = 4
      · by_cases hc1 : cv ≤ 1
        · have hr := readW_ok (filePos f (f.stream.pos + 8)) 4
            (by simp [filePos, hf]) (by simp [filePos]; omega)
          simp [decode_slot, filePos, h12, h3, h4, hc1, hr]
        · by_cases hbound : (readW (filePos f (f.stream.pos + 8)) 4).1 + cv * 4 ≤
              (readW (filePos f (f.stream.pos + 8)) 4).2.size
          · simp [decode_slot, filePos, h12, h3, h4, hc1, hbound, reposition_pos]
          · simp [decode_slot, filePos, h12, h3, h4, hc1, hbound, reposition_pos]
      · by_cases h5 : tv = 5
        · by_cases hbound : (readW (filePos f (f.stream.pos + 8)) 4).1 + cv * 4 ≤
              (readW (filePos f (f.stream.pos + 8)) 4).2.size
          · simp [decode_slot, filePos, h12, h3, h4, h5, hbound, reposition_pos]
          · simp [decode_slot, filePos, h12, h3, h4, h5, hbound, reposition_pos]
        · have hr := readW_ok (filePos f (f.stream.pos + 8)) 4
            (by simp [filePos, hf]) (by simp [filePos]; omega)
          simp [decode_slot, filePos, h12, h3, h4, h5, hr]

lemma count_frames_restores (p : ReaderPrivate) (fuel n : Nat) (q : ReaderPrivate)
    (hf : p.file.stream.fail = false)
    (h : Reader.count_frames p fuel = some (n, q)) :
    q.file.stream.pos = p.file.stream.pos := by
  unfold Reader.count_frames at h
  by_cases hg : p.good = true
  · simp only [hg, if_pos] at h
    rcases hL : count_frames_loop fuel p.file p.file.first_record_offset 0 with _ | ⟨frames, f⟩
    · rw [hL] at h
      simp at h
    · rw [hL] at h
      simp at h
      rw [← h.2]
      simp [ReaderFile.clearStream, ReaderFile.seekAbsF, ByteStream.clear,
            ByteStream.seekAbs]
  · simp only [hg, if_neg, if_false, Bool.false_eq_true] at h
    simp at h
    rw [← h.2]

lemma gsd_restores (p : ReaderPrivate) (sample : Nat) (e0 : Error)
    (hf : p.file.stream.fail = false) :
    (p.get_sample_data_internal sample e0).2.2.file.stream.pos = p.file.stream.pos := by
  simp only [ReaderPrivate.get_sample_data_internal]
  split
  · rfl
  split
  · rfl
  split
  · rfl
  split
  · rfl
  split
  · rfl
  split
  · rfl
  simp [ByteStream.clear, ByteStream.seekAbs]

lemma assembleHost_zero (ord : ByteOrder) (m : Nat) :
    assembleHost ord (List.replicate m 0) = 0 := by
  cases ord with
  | BigEndian =>
    simp only [assembleHost]
    induction m with
    | zero => rfl
    | succ k ih => simpa [List.replicate_succ] using ih
  | Unknown =>
    simp only [assembleHost]
    induction m with
    | zero => rfl
    | succ k ih => simpa [List.replicate_succ] using ih
  | LittleEndian =>
    simp only [assembleHost]
    induction m with
    | zero => rfl
    | succ k ih => simpa [List.replicate_succ] using ih

lemma swap_word_zero (w : Nat) : swap_word w 0 = 0 := by
  simp only [swap_word]
  split
  · decide
  split
  · decide
  decide

lemma serializeHost_zero (ord : ByteOrder) (w : Nat) :
    serializeHost ord w 0 = List.replicate w 0 := by
  have hle : natToBytesLE w 0 = List.replicate w 0 := by
    induction w with
    | zero => rfl
    | succ k ih => simp [natToBytesLE, ih, List.replicate_succ]
  cases ord <;> simp [serializeHost, hle, List.reverse_replicate]

lemma writeAt_zero (m i w : Nat) (hw : i + w ≤ m) :
    writeAt (List.replicate m 0) i (List.replicate w 0) = List.replicate m 0 := by
  simp only [writeAt, List.take_replicate, List.drop_replicate, List.length_replicate]
  rw [show min i m = i from by omega]
  rw [← List.replicate_add, ← List.replicate_add]
  congr 1
  omega

lemma getD_replicate_zero (m i : Nat) : (List.replicate m (0 : Nat)).getD i 0 = 0 := by
  rcases Nat.lt_or_ge i m with h | h
  · rw [List.getD_eq_getElem _ _ (by simpa using h)]
    simp
  · rw [List.getD_eq_default _ _ (by simpa using h)]

lemma chunk_replicate_zero (ord : ByteOrder) (m a b : Nat) :
    assembleHost ord (((List.replicate m (0 : Nat)).drop a).take b) = 0 := by
  rw [List.drop_replicate, List.take_replicate]
  exact assembleHost_zero ord _

lemma swap_chunks_zero (sys : ByteOrder) (w m : Nat) :
    ∀ (k x : Nat), (x + k) * w ≤ m →
      swap_chunks sys w x k (List.replicate m 0) = List.replicate m 0 := by
  intro k
  induction k with
  | zero =>
    intro x hx
    simp [swap_chunks]
  | succ k ih =>
    intro x hx
    simp only [swap_chunks]
    rw [List.drop_replicate, List.take_replicate, assembleHost_zero, swap_word_zero,
        serializeHost_zero]
    rw [writeAt_zero m (x * w) w (by nlinarith)]
    exact ih (x + 1) (by nlinarith)

lemma materialize_zero (sys : ByteOrder) (bps m i : Nat) :
    variant_val (materialize_element sys bps (List.replicate m 0) i) = 0 := by
  simp only [materialize_element]
  split
  · simp [variant_val, getD_replicate_zero]
  split
  · simp [variant_val, chunk_replicate_zero, assembleHost_zero]
  split
  · simp [variant_val, chunk_replicate_zero, assembleHost_zero]
  split
  · simp [variant_val, chunk_replicate_zero, assembleHost_zero]
  simp [variant_val]

theorem c4_short_read_amended (p : ReaderPrivate) (sample : Nat) (e0 : Error)
    (hcomp : p.file.current_frame.compression = 1)
    (htile : p.file.current_frame.is_tiled = false)
    (hor : p.file.current_frame.orientation = 1)
    (hph : p.file.current_frame.photometric_interpertation ≠ 3)
    (hw : p.file.current_frame.width ≠ 0)
    (hh : p.file.current_frame.height ≠ 0)
    (hbps : p.file.current_frame.bits_per_sample = 8 ∨
      p.file.current_frame.bits_per_sample = 16 ∨
      p.file.current_frame.bits_per_sample = 32 ∨
      p.file.current_frame.bits_per_sample = 64)
    (hfit : p.file.current_frame.width * p.file.current_frame.height < U32) :
    (p.get_sample_data_internal sample e0).2.1 = Error.NoError ∧
    (p.get_sample_data_internal sample e0).1.length =
      p.file.current_frame.width * p.file.current_frame.height := by
  simp only [ReaderPrivate.get_sample_data_internal]
  rw [if_neg (by simp [hcomp]), if_neg (by simp [htile]), if_neg (by simp [hor]),
      if_neg hph, if_neg (by simp [hw, hh]), if_neg (not_not_intro hbps)]
  constructor
  · rfl
  · simp [List.length_map, List.length_range, Nat.mod_eq_of_lt hfit]

lemma gsd_zero_strips (p : ReaderPrivate) (sample : Nat) (e0 : Error)
    (hcomp : p.file.current_frame.compression = 1)
    (htile : p.file.current_frame.is_tiled = false)
    (hor : p.file.current_frame.orientation = 1)
    (hph : p.file.current_frame.photometric_interpertation ≠ 3)
    (hw : p.file.current_frame.width ≠ 0)
    (hh : p.file.current_frame.height ≠ 0)
    (hbps : p.file.current_frame.bits_per_sample = 8 ∨
      p.file.current_frame.bits_per_sample = 16 ∨
      p.file.current_frame.bits_per_sample = 32 ∨
      p.file.current_frame.bits_per_sample = 64)
    (hfit : p.file.current_frame.width * p.file.current_frame.height *
      p.file.current_frame.bits_per_sample < U32)
    (hsc : p.file.current_frame.strip_count = 0) :
    (p.get_sample_data_internal sample e0).1 =
      (List.range (p.file.current_frame.width * p.file.current_frame.height % U32)).map
        (materialize_element p.file.system_byte_order
          p.file.current_frame.bits_per_sample
          (List.replicate (p.file.current_frame.width * p.file.current_frame.height % U32
            * p.file.current_frame.bits_per_sample % U32 / 8) 0)) := by
  have hb1 : 1 ≤ p.file.current_frame.bits_per_sample := by
    rcases hbps with h | h | h | h <;> omega
  have hwh : p.file.current_frame.width * p.file.current_frame.height < U32 := by
    have := Nat.le_mul_of_pos_right
      (p.file.current_frame.width * p.file.current_frame.height) hb1
    omega
  have hmod1 : p.file.current_frame.width * p.file.current_frame.height % U32 =
      p.file.current_frame.width * p.file.current_frame.height := Nat.mod_eq_of_lt hwh
  have hmod2 : p.file.current_frame.width * p.file.current_frame.height % U32 *
      p.file.current_frame.bits_per_sample % U32 =
      p.file.current_frame.width * p.file.current_frame.height *
        p.file.current_frame.bits_per_sample := by
    rw [hmod1]
    exact Nat.mod_eq_of_lt hfit
  simp only [ReaderPrivate.get_sample_data_internal]
  rw [if_neg (by simp [hcomp]), if_neg (by simp [htile]), if_neg (by simp [hor]),
      if_neg hph, if_neg (by simp [hw, hh]), if_neg (not_not_intro hbps)]
  rw [if_neg (by simp [hsc])]
  by_cases hB : p.file.current_frame.samples_per_pixel > 1 ∧
      p.file.current_frame.planar_config = 1
  · rw [if_pos hB]
    have hbuf : (chunky_extract p.file.system_byte_order p.file.file_byte_order
        p.file.current_frame sample
        (List.replicate (p.file.current_frame.width * p.file.current_frame.height % U32
          * p.file.current_frame.bits_per_sample % U32 / 8) 0)
        p.file.stream e0).1 =
        List.replicate (p.file.current_frame.width * p.file.current_frame.height % U32
          * p.file.current_frame.bits_per_sample % U32 / 8) 0 := by
      simp only [chunky_extract, hsc, chunky_loop]
      split_ifs with h1 h2 h3 h4 h5
      · rfl
      · exact swap_chunks_zero _ 2 _ _ 0 (by rw [hmod2, hmod1, h3]; omega)
      · exact swap_chunks_zero _ 4 _ _ 0 (by rw [hmod2, hmod1, h4]; omega)
      · exact swap_chunks_zero _ 8 _ _ 0 (by rw [hmod2, hmod1, h5]; omega)
      · rfl
      · rfl
    rw [hbuf]
  · rw [if_neg hB]

lemma gsd_as_map (p : ReaderPrivate) (sample : Nat) (e0 : Error)
    (hcomp : p.file.current_frame.compression = 1)
    (htile : p.file.current_frame.is_tiled = false)
    (hor : p.file.current_frame.orientation = 1)
    (hph : p.file.current_frame.photometric_interpertation ≠ 3)
    (hw : p.file.current_frame.width ≠ 0)
    (hh : p.file.current_frame.height ≠ 0)
    (hbps : p.file.current_frame.bits_per_sample = 8 ∨
      p.file.current_frame.bits_per_sample = 16 ∨
      p.file.current_frame.bits_per_sample = 32 ∨
      p.file.current_frame.bits_per_sample = 64) :
    ∃ buf, (p.get_sample_data_internal sample e0).1 =
      (List.range (p.file.current_frame.width * p.file.current_frame.height % U32)).map
        (materialize_element p.file.system_byte_order
          p.file.current_frame.bits_per_sample buf) := by
  simp only [ReaderPrivate.get_sample_data_internal]
  rw [if_neg (by simp [hcomp]), if_neg (by simp [htile]), if_neg (by simp [hor]),
      if_neg hph, if_neg (by simp [hw, hh]), if_neg (not_not_intro hbps)]
  exact ⟨_, rfl⟩

/-- C9: when all six extraction preconditions pass, `get_sample_data`
returns exactly width x height elements, each of the resolved storage
width, and when the frame has no strip offsets or strip byte counts at
all, every returned element is zero. -/
theorem c9_extraction_shape (p : ReaderPrivate) (sample : Nat) (e0 : Error)
    (hgood : p.good = true)
    (hcomp : p.file.current_frame.compression = 1)
    (htile : p.file.current_frame.is_tiled = false)
    (hor : p.file.current_frame.orientation = 1)
    (hph : p.file.current_frame.photometric_interpertation ≠ 3)
    (hw : p.file.current_frame.width ≠ 0)
    (hh : p.file.current_frame.height ≠ 0)
    (hbps : p.file.current_frame.bits_per_sample = 8 ∨
      p.file.current_frame.bits_per_sample = 16 ∨
      p.file.current_frame.bits_per_sample = 32 ∨
      p.file.current_frame.bits_per_sample = 64)
    (hfit : p.file.current_frame.width * p.file.current_frame.height *
      p.file.current_frame.bits_per_sample < U32) :
    (Reader.get_sample_data p sample e0).1.length =
      p.file.current_frame.width * p.file.current_frame.height ∧
    (∀ v ∈ (Reader.get_sample_data p sample e0).1,
      variant_width v = p.file.current_frame.bits_per_sample) ∧
    (p.file.current_frame.strip_count = 0 →
      p.file.current_frame.strip_offsets = [] →
      p.file.current_frame.strip_byte_counts = [] →
      ∀ v ∈ (Reader.get_sample_data p sample e0).1, variant_val v = 0) := by
  have hb1 : 1 ≤ p.file.current_frame.bits_per_sample := by
    rcases hbps with h | h | h | h <;> omega
  have hwh : p.file.current_frame.width * p.file.current_frame.height < U32 := by
    have := Nat.le_mul_of_pos_right
      (p.file.current_frame.width * p.file.current_frame.height) hb1
    omega
  have hmod1 : p.file.current_frame.width * p.file.current_frame.height % U32 =
      p.file.current_frame.width * p.file.current_frame.height := Nat.mod_eq_of_lt hwh
  have hpub : Reader.get_sample_data p sample e0 = p.get_sample_data_internal sample e0 := by
    simp [Reader.get_sample_data, hgood]
  obtain ⟨buf, hbuf⟩ := gsd_as_map p sample e0 hcomp htile hor hph hw hh hbps
  refine ⟨?_, ?_, ?_⟩
  · rw [hpub, hbuf]
    simp [hmod1]
  · intro v hv
    rw [hpub, hbuf, List.mem_map] at hv
    obtain ⟨i, _, rfl⟩ := hv
    rcases hbps with h | h | h | h <;> simp [materialize_element, h, variant_width]
  · intro hsc hso hsb v hv
    rw [hpub, gsd_zero_strips p sample e0 hcomp htile hor hph hw hh hbps hfit hsc,
        List.mem_map] at hv
    obtain ⟨i, _, rfl⟩ := hv
    exact materialize_zero _ _ _ _

/-! Claim theorems: counterexamples, amended statements, witnesses. -/

/-- Claim C2, counterexample: the 12-byte ASCII entry with count 0 at
cursor 0 leaves the cursor at 8, not 12 — the `if (d.count > 0)` guard
skips the 4-byte value slot without consuming it, and no repositioning
happens because `pos_changed` stays false. -/
theorem c2_count0_counterexample :
    (read_ifd c2ce_file).1.type = 2 ∧ (read_ifd c2ce_file).1.count = 0 ∧
    c2ce_file.stream.pos = 0 ∧ (read_ifd c2ce_file).2.stream.pos = 8 ∧
    (read_ifd c2ce_file).2.stream.pos ≠ c2ce_file.stream.pos + 12 := by decide

/-- Claim C2, amended: for every 12-byte directory entry (whose 12 bytes
lie within the stream), `read_ifd` leaves the cursor exactly 12 bytes
past the entry start for every declared type and count — no matter how
many indirect offset reads happened — except a Byte/ASCII entry with
count 0, which leaves the cursor only 8 bytes past the start (the value
slot is never consumed). -/
theorem c2_entry_cursor (f : ReaderFile) (hf : f.stream.fail = false)
    (hin : f.stream.pos + 12 ≤ f.stream.data.length) :
    (read_ifd f).2.stream.pos =
      f.stream.pos + (if ((read_ifd f).1.type = 1 ∨ (read_ifd f).1.type = 2) ∧
          (read_ifd f).1.count = 0 then 8 else 12) :=
  read_ifd_cursor f hf hin

/-- Witness for C2 at a concrete Long entry with count 1. -/
theorem c2_entry_cursor_witness :
    (read_ifd c2w_file).2.stream.pos =
      c2w_file.stream.pos + (if ((read_ifd c2w_file).1.type = 1 ∨
          (read_ifd c2w_file).1.type = 2) ∧ (read_ifd c2w_file).1.count = 0
        then 8 else 12) :=
  c2_entry_cursor c2w_file (by decide) (by decide)

set_option maxRecDepth 100000 in
/-- Claim C3: for the sample byte window [0,100) against the strip table
with logical spans [0,50) and [50,100) (stored at file offsets 120 and
30 over pairwise distinct file bytes), the planar extraction reads
exactly 50 bytes from each strip at exactly those offsets and fills the
output contiguously — the result is the two 50-byte slices concatenated,
with no error and the stream restored. -/
theorem c3_two_strip_window :
    (c3p.get_sample_data_internal 0 Error.NoError).1 =
      ((((List.range 200).drop 120).take 50) ++
        (((List.range 200).drop 30).take 50)).map variant_t.u8 ∧
    (c3p.get_sample_data_internal 0 Error.NoError).2.1 = Error.NoError ∧
    (c3p.get_sample_data_internal 0 Error.NoError).2.2 = c3p := by decide

/-- Claim C4, counterexample: on a frame declaring a 2-byte strip at
offset 5 of a 6-byte file, the strip read is short (1 byte), extraction
continues and returns the partially filled buffer [9, 0] — but the
returned error is `NoError`, not `StripDataLost`: the trailing
`err = Error::NoError` overwrites the flag before returning. -/
theorem c4_error_clobbered_counterexample :
    (c4p.get_sample_data_internal 0 Error.NoError).1 =
      [variant_t.u8 9, variant_t.u8 0] ∧
    (c4p.get_sample_data_internal 0 Error.NoError).2.1 = Error.NoError ∧
    (c4p.get_sample_data_internal 0 Error.NoError).2.1 ≠ Error.StripDataLost ∧
    c4p.file.current_frame.strip_byte_counts = [2] ∧
    c4p.file.current_frame.strip_offsets = [5] ∧
    c4p.file.stream.data.length = 6 := by decide

/-- Witness for the amended C4 at a concrete short-read frame. -/
theorem c4_short_read_amended_witness :
    (c4wp.get_sample_data_internal 0 Error.NoError).2.1 = Error.NoError ∧
    (c4wp.get_sample_data_internal 0 Error.NoError).1.length =
      c4wp.file.current_frame.width * c4wp.file.current_frame.height :=
  c4_short_read_amended c4wp 0 Error.NoError (by decide) (by decide) (by decide)
    (by decide) (by decide) (by decide) (by decide) (by decide)

/-- Claim C5, counterexample: on the successfully opened 3-page fixture,
`count_frames` reports 3, but only 2 `read_next_frame` calls succeed
before `has_next_frame` becomes false (the first page was already
consumed by `open`). -/
theorem c5_three_page_counterexample :
    (open_reader ByteOrder.LittleEndian c5data).1 = Error.NoError ∧
    (Reader.count_frames c5p 10).map (fun t => t.1) = some 3 ∧
    Reader.has_next_frame c5p = true ∧
    (Reader.read_next_frame c5p).1 = Error.NoError ∧
    (Reader.read_next_frame (Reader.read_next_frame c5p).2).1 = Error.NoError ∧
    Reader.has_next_frame
      (Reader.read_next_frame (Reader.read_next_frame c5p).2).2 = false ∧
    (Reader.read_next_frame
      (Reader.read_next_frame (Reader.read_next_frame c5p).2).2).1 =
      Error.NoMoreImagesInTiff := by decide

/-- Claim C5, amended: on the successfully opened 3-page fixture,
`count_frames` returns one more than the number of `read_next_frame`
calls that succeed before `has_next_frame` becomes false — it also
counts the first page, which `open` already decoded. -/
theorem c5_count_frames_off_by_open :
    count_successful_reads 10 c5p = 2 ∧
    (Reader.count_frames c5p 10).map (fun t => t.1) =
      some (count_successful_reads 10 c5p + 1) := by decide

/-- Claim C6: for the Byte entry with count 5 and offset slot 20 in a
32-byte file, the parser validates the bound and decodes five values —
but it reads them from the stream position right after the entry
(position 12), not from offset 20: the bounds-checked offset is never
seeked to (unlike the Short/Long/Rational branches). -/
theorem c6_byte_indirect_no_seek :
    (read_ifd c6file).1.type = 1 ∧ (read_ifd c6file).1.count = 5 ∧
    (read_ifd c6file).1.pvalue = [101, 102, 103, 104, 105] ∧
    (c6file.stream.data.drop 20).take 5 = [201, 202, 203, 204, 205] ∧
    (read_ifd c6file).1.pvalue = (c6file.stream.data.drop 12).take 5 ∧
    (read_ifd c6file).1.pvalue ≠ (c6file.stream.data.drop 20).take 5 := by decide

/-- Claim C7, counterexample: decoding a Byte entry with count 0 moves
the cursor from 0 to 8 — neither unchanged nor the contractual 12 bytes
past the entry start. -/
theorem c7_count0_scratch_counterexample :
    c7ce_file.stream.pos = 0 ∧ (read_ifd c7ce_file).2.stream.pos = 8 ∧
    ¬((read_ifd c7ce_file).2.stream.pos = c7ce_file.stream.pos ∨
      (read_ifd c7ce_file).2.stream.pos = c7ce_file.stream.pos + 12) := by decide

/-- Claim C7, amended: `count_frames` and `get_sample_data` restore the
stream position exactly; directory-entry decoding advances it
deterministically — to 12 bytes past the entry start regardless of the
indirect offset reads, except for a Byte/ASCII entry with count 0, which
stops 8 bytes past the start. -/
theorem c7_stream_discipline :
    (∀ (p : ReaderPrivate) (fuel n : Nat) (q : ReaderPrivate),
      p.file.stream.fail = false → Reader.count_frames p fuel = some (n, q) →
        q.file.stream.pos = p.file.stream.pos) ∧
    (∀ (p : ReaderPrivate) (sample : Nat) (e0 : Error),
      p.file.stream.fail = false →
        (p.get_sample_data_internal sample e0).2.2.file.stream.pos =
          p.file.stream.pos) ∧
    (∀ (f : ReaderFile), f.stream.fail = false →
      f.stream.pos + 12 ≤ f.stream.data.length →
        (read_ifd f).2.stream.pos =
          f.stream.pos + (if ((read_ifd f).1.type = 1 ∨ (read_ifd f).1.type = 2) ∧
              (read_ifd f).1.count = 0 then 8 else 12)) :=
  ⟨count_frames_restores, gsd_restores, read_ifd_cursor⟩

/-- Witness for C7 at concrete sessions and a concrete Short entry. -/
theorem c7_stream_discipline_witness :
    c7wq.file.stream.pos = c7wp.file.stream.pos ∧
    (c7gp.get_sample_data_internal 0 Error.NoError).2.2.file.stream.pos =
      c7gp.file.stream.pos ∧
    (read_ifd c7w_file).2.stream.pos =
      c7w_file.stream.pos + (if ((read_ifd c7w_file).1.type = 1 ∨
          (read_ifd c7w_file).1.type = 2) ∧ (read_ifd c7w_file).1.count = 0
        then 8 else 12) :=
  ⟨c7_stream_discipline.1 c7wp 1 0 c7wq (by decide) (by decide),
   c7_stream_discipline.2.1 c7gp 0 Error.NoError (by decide),
   c7_stream_discipline.2.2 c7w_file (by decide) (by decide)⟩

/-- Claim C1: the planar and chunky encodings of the identical logical
pixel content [(7,9), (8,10)] do not extract identically — the planar
session yields the true plane values while the chunky session yields all
zeros, because the chunky strategy is the `else` of the strip-presence
test and never runs when strip tables are present. -/
theorem c1_planar_chunky_divergence :
    (c1planar.get_sample_data_internal 0 Error.NoError).1 =
      [variant_t.u8 7, variant_t.u8 8] ∧
    (c1planar.get_sample_data_internal 1 Error.NoError).1 =
      [variant_t.u8 9, variant_t.u8 10] ∧
    (c1chunky.get_sample_data_internal 0 Error.NoError).1 =
      [variant_t.u8 0, variant_t.u8 0] ∧
    (c1chunky.get_sample_data_internal 0 Error.NoError).1 ≠
      (c1planar.get_sample_data_internal 0 Error.NoError).1 := by decide

/-- Witness for C9 at a concrete strip-free 16-bit frame. -/
theorem c9_extraction_shape_witness :
    (Reader.get_sample_data c9p 0 Error.NoError).1.length =
      c9p.file.current_frame.width * c9p.file.current_frame.height :=
  (c9_extraction_shape c9p 0 Error.NoError (by decide) (by decide) (by decide)
    (by decide) (by decide) (by decide) (by decide) (by decide) (by decide)).1

/-- Claim C10: calling the public `read_next_frame` when
`has_next_frame` is false returns `NoMoreImagesInTiff` and leaves the
session entirely unchanged. -/
theorem c10_no_next_frame_noop (p : ReaderPrivate)
    (h : Reader.has_next_frame p = false) :
    Reader.read_next_frame p = (Error.NoMoreImagesInTiff, p) := by
  simp [Reader.read_next_frame, h]

/-- Witness for C10 at a never-opened session. -/
theorem c10_no_next_frame_noop_witness :
    Reader.has_next_frame c10p = false ∧
    Reader.read_next_frame c10p = (Error.NoMoreImagesInTiff, c10p) :=
  ⟨by decide, c10_no_next_frame_noop c10p (by decide)⟩
